import Mathlib

/-!
Verification of the per-connection NNTP peer state machine of
contrib/backends/srndv2/src/srnd/nntp.go (nntpchan).

The Go code is shallowly embedded: the per-connection mutable state
(struct nntpConnection) becomes an explicit state record, the Go map
pending (map of message-id to syncEvent) becomes an association list with
unique keys, channels become lists, and the external collaborators
(store, database, daemon, crypto helpers such as ValidMessageID that live
outside this file set) become oracle functions collected in an Env record.
Go (value, error) pairs are embedded as products with Option String for
the error (none embeds a nil error).  Go runtime panics (out-of-range
indexing and slicing) are embedded as the error case of Except.
-/

namespace Srnd

/-- The reserved dummy message identifier, constant nntpDummyArticle in nntp.go. -/
def nntpDummyArticle : String := "<keepalive@dummy.tld>"

/-- struct syncEvent of nntp.go: msgid, size and streaming state. -/
structure SyncEv where
  msgid : String
  sz : Int
  state : String
deriving Repr, DecidableEq

/-- The claim-relevant mutable fields of struct nntpConnection.  The Go map
pending is an association list whose keys are kept unique by the operations;
the three offer channels are lists (send appends at the tail).  Fields of the
Go struct that no verified claim touches (feedname, hostname, tls state,
timers, locks) are omitted. -/
structure ConnState where
  mode : String := ""
  authenticated : Bool := false
  username : String := ""
  group : String := ""
  selected_article : String := ""
  pending : List SyncEv := []
  backlog : Int := 0
  checkChan : List SyncEv := []
  takethisChan : List SyncEv := []
  articleChan : List String := []
deriving Repr, DecidableEq

/-- createNNTPConnection: a fresh connection state, everything empty. -/
def freshConn : ConnState := {}

/-- Lookup in the pending association list (the Go map read). -/
def pendingFind (p : List SyncEv) (m : String) : Option SyncEv :=
  p.find? (fun ev => ev.msgid == m)

/-- func (self *nntpConnection) messageIsQueued. -/
def messageIsQueued (s : ConnState) (msgid : String) : Bool :=
  (pendingFind s.pending msgid).isSome

/-- The in-place update of messageSetPendingState on a present entry: only
the state field changes, the stored size is kept. -/
def setStateFn (m st : String) (ev : SyncEv) : SyncEv :=
  if ev.msgid == m then { ev with state := st } else ev

/-- The map write of messageSetPendingState: when the key is present only the
state field changes (the stored size is kept); otherwise a new entry with the
given size is inserted. -/
def setPendingList (p : List SyncEv) (m st : String) (sz : Int) : List SyncEv :=
  if (p.find? (fun ev => ev.msgid == m)).isSome then
    p.map (setStateFn m st)
  else
    ⟨m, sz, st⟩ :: p

/-- func (self *nntpConnection) messageSetPendingState. -/
def messageSetPendingState (s : ConnState) (m st : String) (sz : Int) : ConnState :=
  { s with pending := setPendingList s.pending m st sz }

/-- func (self *nntpConnection) messageSetProcessed: when the id is pending,
subtract its recorded size from the backlog and delete the entry. -/
def messageSetProcessed (s : ConnState) (m : String) : ConnState :=
  match pendingFind s.pending m with
  | some ev =>
      { s with backlog := s.backlog - ev.sz,
               pending := s.pending.filter (fun e => !(e.msgid == m)) }
  | none => s

/-- func (self *nntpConnection) offerStream: a no-op when the id is already
pending; otherwise add the size to the backlog, insert the entry as queued and
push the offer onto the check channel. -/
def offerStream (s : ConnState) (msgid : String) (sz : Int) : ConnState :=
  if messageIsQueued s msgid then s
  else
    let s1 : ConnState := { s with backlog := s.backlog + sz }
    let s2 := messageSetPendingState s1 msgid "queued" sz
    { s2 with checkChan := s2.checkChan ++ [⟨msgid, sz, "queued"⟩] }

/-- The reply-code arm of handleLine (codes 238, 239, 431, 439, 438).  The
argument sigma is daemon.store.GetMessageSize.  Code 238 upserts the entry as
takethis with size 0 and pushes onto the takethis channel; 239, 431, 438 and
439 mark the id processed; all codes except 239 first acknowledge the dummy
article silently. -/
def handleReplyCode (sigma : String → Int) (s : ConnState) (code : Int)
    (msgid : String) : ConnState :=
  if code == 238 then
    if msgid == nntpDummyArticle then s
    else
      let s1 := messageSetPendingState s msgid "takethis" 0
      { s1 with takethisChan := s1.takethisChan ++ [⟨msgid, sigma msgid, ""⟩] }
  else if code == 239 then
    messageSetProcessed s msgid
  else if code == 431 then
    if msgid == nntpDummyArticle then s else messageSetProcessed s msgid
  else if code == 439 then
    if msgid == nntpDummyArticle then s else messageSetProcessed s msgid
  else if code == 438 then
    if msgid == nntpDummyArticle then s else messageSetProcessed s msgid
  else s

/-- Sum of the recorded sizes over the pending table. -/
def sumSz (p : List SyncEv) : Int :=
  (p.map (fun ev => ev.sz)).sum

/-- The keys of the pending association list are distinct (the Go map
guarantees this structurally). -/
def keysNodup (p : List SyncEv) : Prop :=
  (p.map (fun ev => ev.msgid)).Nodup

/-- The state invariant: unique pending keys, and the backlog counter equals
the sum of the recorded sizes of the pending entries. -/
def StateInv (s : ConnState) : Prop :=
  keysNodup s.pending ∧ s.backlog = sumSz s.pending

/-- The admission-relevant MIME header fields, one field per hdr.Get call made
by nntp.go (getMessageID is embedded as the messageId field). -/
structure ArticleHeader where
  newsgroups : String := ""
  references : String := ""
  messageId : String := ""
  encIp : String := ""
  torPoster : String := ""
  i2pDesthash : String := ""
  contentType : String := ""
  pubkey : String := ""
  frontendPubkey : String := ""
  frontendSig : String := ""
  path : String := ""
deriving Repr, DecidableEq

/-- Result triple of checkMIMEHeaderNoAuth: (reason, ban, err); err is none
for a nil Go error. -/
structure CheckResult where
  reason : String
  ban : Bool
  err : Option String
deriving Repr, DecidableEq

/-- The external collaborators of the connection code (store, database,
daemon and the crypto and parsing helpers that live in other files of the
repository), as oracle functions.  Functions that Go calls with a discarded
error return just a Bool; calls whose error result the code inspects return a
pair with Option String.  policyAllows embeds the optional self.policy. -/
structure Env where
  validMessageID : String → Bool
  newsgroupValidFormat : String → Bool
  serverPubkeyIsValid : String → Bool
  verifyFrontendSig : String → String → String → Bool
  pubkeyIsBanned : String → Bool
  newsgroupBanned : String → Bool
  storeHasArticle : String → Bool
  articleBanned : String → Bool
  dbHasArticle : String → Bool
  hasArticleLocal : String → Bool
  checkEncIPBanned : String → Bool × Option String
  isExpired : String → Bool
  allow_anon : Bool
  allow_anon_attachments : Bool
  allow_attachments : Bool
  policyAllows : Option (String → Bool)
  storeSize : String → Int
  checkNNTPUserExists : String → Bool × Option String
  checkNNTPLogin : String → String → Bool × Option String
  readHeader : Except String ArticleHeader
  createFileOk : String → Bool
  writeHeaderErr : Option String
  processBodyErr : Option String
  getMessageIDForNNTPID : String → Int → String × Option String
  openMessage : String → Option String
  getMIMEHeader : String → ArticleHeader
  hasNewsgroup : String → Bool
  getEncAddress : Option String
  genMessageID : String
  instance_name : String
  canTLS : Bool
  handleStartTLSOk : Bool

/-!
Go string primitives, embedded structurally over the character list of a
String so that they evaluate inside the kernel (the built-in String functions
are position-based and do not reduce).  The command lines and header values
involved are ASCII, where Go byte indexing and character indexing agree.
-/

/-- strings.Split(s, sep) for the single-space separator: split at every
space character; Split of the empty string is the singleton empty token. -/
def splitSpacesAux (cur : List Char) : List Char → List (List Char)
  | [] => [cur.reverse]
  | c :: rest =>
      if c == ' ' then cur.reverse :: splitSpacesAux [] rest
      else splitSpacesAux (c :: cur) rest

def goSplit (s : String) : List String :=
  (splitSpacesAux [] s.data).map String.mk

/-- strings.ToUpper restricted to ASCII letters. -/
def goUpperChar (c : Char) : Char :=
  if 97 ≤ c.toNat ∧ c.toNat ≤ 122 then Char.ofNat (c.toNat - 32) else c

def goToUpper (s : String) : String :=
  String.mk (s.data.map goUpperChar)

/-- strings.HasPrefix(s, pre). -/
def goHasPrefixList : List Char → List Char → Bool
  | [], _ => true
  | _ :: _, [] => false
  | p :: ps, c :: cs => p == c && goHasPrefixList ps cs

def goHasPrefixStr (s pre : String) : Bool :=
  goHasPrefixList pre.data s.data

/-- The slice s[n:] (total here; every caller guards the Go panic case). -/
def goDrop (s : String) (n : Nat) : String :=
  String.mk (s.data.drop n)

def digitVal (c : Char) : Option Nat :=
  if 48 ≤ c.toNat ∧ c.toNat ≤ 57 then some (c.toNat - 48) else none

def parseDigitsAux (acc : Nat) : List Char → Option Nat
  | [] => some acc
  | c :: cs =>
      match digitVal c with
      | some d => parseDigitsAux (acc * 10 + d) cs
      | none => none

/-- strconv.ParseInt(s, 10, _) / strconv.Atoi: optional sign, at least one
digit, nothing else (the bit-size overflow check is irrelevant at the reply
codes and article numbers in play). -/
def goParseInt (s : String) : Option Int :=
  match s.data with
  | [] => none
  | c :: cs =>
      if c == '+' then
        match cs with
        | [] => none
        | _ => (parseDigitsAux 0 cs).map (fun n => (n : Int))
      else if c == '-' then
        match cs with
        | [] => none
        | _ => (parseDigitsAux 0 cs).map (fun n => -(n : Int))
      else (parseDigitsAux 0 (c :: cs)).map (fun n => (n : Int))

/-- The tail of checkMIMEHeaderNoAuth after the non-anonymous branch: the
check against allow_attachments.  The accumulated ban and err values flow
into the final return when no further rule fires. -/
def checkAttachTail (env : Env) (isCtl isSigned hasAttachment : Bool)
    (ban : Bool) (err : Option String) : CheckResult :=
  if !env.allow_attachments then
    if isCtl then ⟨"", ban, err⟩
    else if isSigned then ⟨"disallow signed posts because no attachments allowed", true, err⟩
    else if hasAttachment then ⟨"attachments of any kind not allowed", true, err⟩
    else ⟨"", ban, err⟩
  else ⟨"", ban, err⟩

/-- The rule chain of checkMIMEHeaderNoAuth after the frontend-pubkey block
(the else-if ladder from the newsgroup format check onwards). -/
def checkRules (env : Env) (hdr : ArticleHeader) : CheckResult :=
  let newsgroup := hdr.newsgroups
  let reference := hdr.references
  let msgid := hdr.messageId
  let encaddr := hdr.encIp
  let torposter := hdr.torPoster
  let i2paddr := hdr.i2pDesthash
  let hasAttachment := goHasPrefixStr hdr.contentType "multipart/mixed"
  let pubkey := hdr.pubkey
  let isSigned := pubkey != ""
  let isCtl := newsgroup == "ctl" && isSigned
  let anonPoster := torposter != "" || i2paddr != "" || encaddr == ""
  if !env.newsgroupValidFormat newsgroup then
    ⟨"invalid newsgroup: " ++ newsgroup, true, none⟩
  else if env.newsgroupBanned newsgroup then
    ⟨"newsgroup banned", true, none⟩
  else if env.pubkeyIsBanned pubkey then
    ⟨"poster's pubkey is banned", true, none⟩
  else if (match env.policyAllows with
           | some allows => !allows newsgroup
           | none => false) then
    ⟨"newsgroup not allowed by feed policy", true, none⟩
  else if !(env.validMessageID msgid || (reference != "" && !env.validMessageID reference)) then
    -- note: this is the predicate exactly as written in the source at
    -- nntp.go line 446; its own comment says invalid message id or reference
    ⟨"invalid reference or message id is '" ++ msgid ++ "' reference is '"
       ++ reference ++ "'", true, none⟩
  else if env.storeHasArticle msgid then
    ⟨"we have this article locally", false, none⟩
  else if env.articleBanned msgid then
    ⟨"article banned", true, none⟩
  else if reference != "" && env.articleBanned reference then
    ⟨"thread banned", true, none⟩
  else if env.dbHasArticle msgid then
    ⟨"we have this article already", false, none⟩
  else if isCtl then
    ⟨"", false, none⟩
  else if anonPoster then
    if env.allow_anon then
      if hasAttachment then
        if env.allow_anon_attachments then
          if env.allow_attachments then ⟨"", false, none⟩
          else ⟨"no attachments allowed", true, none⟩
        else ⟨"no anon attachments", true, none⟩
      else ⟨"", false, none⟩
    else ⟨"no anon posts allowed", true, none⟩
  else
    -- non-anonymous: check for banned address; note that the named return
    -- value ban is assigned the CheckEncIPBanned result and flows onward
    if encaddr != "" then
      let br := env.checkEncIPBanned encaddr
      if br.2 == none && br.1 then
        ⟨"poster remote address is banned", br.1, br.2⟩
      else
        checkAttachTail env isCtl isSigned hasAttachment br.1 br.2
    else
      checkAttachTail env isCtl isSigned hasAttachment false none

/-- func (self *nntpConnection) checkMIMEHeaderNoAuth of nntp.go. -/
def checkMIMEHeaderNoAuth (env : Env) (hdr : ArticleHeader) : CheckResult :=
  let serverPubkey := hdr.frontendPubkey
  let serverSig := hdr.frontendSig
  let msgid := hdr.messageId
  if env.serverPubkeyIsValid serverPubkey then
    if env.pubkeyIsBanned serverPubkey then
      ⟨"server's pubkey is banned", true, none⟩
    else if !env.verifyFrontendSig serverPubkey serverSig msgid then
      ⟨"invalid frontend signature", true, none⟩
    else checkRules env hdr
  else if serverPubkey != "" then
    ⟨"invalid server public key: " ++ serverPubkey, true, none⟩
  else checkRules env hdr

/-- func (self *nntpConnection) checkMIMEHeader: the authenticated gate in
front of checkMIMEHeaderNoAuth. -/
def checkMIMEHeader (env : Env) (s : ConnState) (hdr : ArticleHeader) : CheckResult :=
  if !s.authenticated then ⟨"not authenticated", false, none⟩
  else checkMIMEHeaderNoAuth env hdr

/-- The condition of the anonymous-poster branch exactly as computed by the
source (nntp.go line 405): tor poster present, or i2p desthash present, or no
encrypted ip. -/
def anonPoster (hdr : ArticleHeader) : Bool :=
  hdr.torPoster != "" || hdr.i2pDesthash != "" || hdr.encIp == ""

/-- Modelled from the spec's words for claim C2 only (glossary: a message
lacking all of X-Encrypted-Ip, X-Tor-Poster, X-I2p-Desthash), to be compared
with the source condition anonPoster. -/
def specAnonPoster (hdr : ArticleHeader) : Bool :=
  hdr.encIp == "" && hdr.torPoster == "" && hdr.i2pDesthash == ""

/-- Observable actions of the handlers: lines printed to the peer and calls
into the collaborators.  dotLine is a line written inside a dot-multiline
block.  otherCommand marks a command branch whose internal behavior no
verified claim touches; the branch structure of the dispatch is kept. -/
inductive Effect where
  | reply (line : String)
  | dotLine (line : String)
  | closeConn
  | startTLS
  | startStreaming
  | banArticle (msgid reason : String)
  | askForArticle (msgid newsgroup : String)
  | sendArticle (msgid : String)
  | discardBody
  | createFile (msgid : String)
  | processBody
  | loadFromInfeed (msgid : String)
  | deleteFile (msgid : String)
  | otherCommand (cmd : String)
deriving Repr, DecidableEq

/-- func (self *nntpConnection) storeMessage: returns the effects performed
and the propagated error.  The body is the size-limited reader; copying it to
Discard is the discardBody effect.  CreateFile returning nil (the in-flight
duplicate signal) is embedded as createFileOk being false. -/
def storeMessage (env : Env) (hdr : ArticleHeader) : List Effect × Option String :=
  let msgid := hdr.messageId
  if msgid == "" then ([.discardBody], none)
  else if env.validMessageID msgid then
    if env.createFileOk msgid then
      -- hdr.Set(Path, instance_name + "!" + path), then writeMIMEHeader,
      -- ProcessMessageBody, loadFromInfeed; on error the file is deleted
      match env.writeHeaderErr with
      | some e => ([.createFile msgid, .deleteFile msgid], some e)
      | none =>
          match env.processBodyErr with
          | none => ([.createFile msgid, .processBody, .loadFromInfeed msgid], none)
          | some e => ([.createFile msgid, .processBody, .deleteFile msgid], some e)
    else ([.discardBody], none)
  else ([.discardBody], none)

/-- The CHECK command branch of handleLine. -/
def handleCheck (env : Env) (s : ConnState) (msgid : String) :
    ConnState × List Effect :=
  if s.mode != "STREAM" then (s, [.reply ("431 " ++ msgid)])
  else if env.storeHasArticle msgid then (s, [.reply ("438 " ++ msgid)])
  else if env.articleBanned msgid then (s, [.reply ("438 " ++ msgid)])
  else (s, [.reply ("238 " ++ msgid)])

/-- The AUTHINFO command branch of handleLine.  Go evaluates parts[2] in the
USER arm and line[14:] in the PASS arm without a bounds check; both runtime
panics are embedded as Except.error.  The PASS arm slices the password out of
the raw line (characters index bytes of the ASCII command line). -/
def handleAuthinfo (env : Env) (s : ConnState) (parts : List String)
    (line : String) : Except String (ConnState × List Effect) :=
  if parts.length > 1 then
    let authCmd := goToUpper (parts.getD 1 "")
    if authCmd == "USER" then
      match parts.get? 2 with
      | none => .error "runtime error: index out of range"
      | some u => .ok ({ s with username := u }, [.reply "381 Password required"])
    else if authCmd == "PASS" then
      if s.username.length == 0 then
        .ok (s, [.reply "482 Authentication commands issued out of sequence"])
      else
        let r1 := env.checkNNTPUserExists s.username
        if r1.1 then
          if line.length < 14 then .error "runtime error: slice bounds out of range"
          else
            let r2 := env.checkNNTPLogin s.username (goDrop line 14)
            if r2.1 then
              .ok ({ s with authenticated := true }, [.reply "281 Authentication accepted"])
            else if r2.2 == none then
              .ok (s, [.reply "481 Authentication rejected"])
            else
              .ok (s, [.reply "501 error while logging in"])
        else
          if r1.2 == none then
            .ok (s, [.reply "481 Authentication rejected"])
          else
            .ok (s, [.reply "501 error while logging in"])
    else .ok (s, [])
  else .ok (s, [])

/-- The TAKETHIS command branch of handleLine: read the header, run the
admission check, then either discard (and possibly ban) or ingest via
storeMessage; a single final reply carries the accumulated code and reason. -/
def handleTakethis (env : Env) (s : ConnState) (msgid : String) :
    ConnState × List Effect :=
  match env.readHeader with
  | .error _ => (s, [.reply ("439 " ++ msgid ++ " error reading mime header")])
  | .ok hdr =>
      let cr := checkMIMEHeader env s hdr
      if cr.reason.length > 0 then
        (s, [.discardBody]
              ++ (if cr.ban then [.banArticle msgid cr.reason] else [])
              ++ [.reply ("439 " ++ msgid ++ " " ++ cr.reason)])
      else if cr.err == none then
        let reference := hdr.references
        let newsgroup := hdr.newsgroups
        let ask :=
          if reference != "" && env.validMessageID reference
              && !env.storeHasArticle reference && !env.isExpired reference then
            [Effect.askForArticle reference newsgroup]
          else []
        let sm := storeMessage env hdr
        match sm.2 with
        | none => (s, ask ++ sm.1 ++ [.reply ("239 " ++ msgid ++ " gotten")])
        | some e => (s, ask ++ sm.1 ++ [.reply ("439 " ++ msgid ++ " " ++ e)])
      else
        (s, [.discardBody]
              ++ (if cr.ban then [.banArticle msgid cr.reason] else [])
              ++ [.reply ("439 " ++ msgid ++ " " ++ cr.reason)])

/-- The ARTICLE command branch of handleLine: an argument that is not a valid
message-id is translated through the selected group; then the article is
served from the store or 430 is returned. -/
def handleArticle (env : Env) (s : ConnState) (msgid0 : String) :
    ConnState × List Effect :=
  let msgid :=
    if !env.validMessageID msgid0 then
      if s.group.length > 0 then
        match goParseInt msgid0 with
        | some n => (env.getMessageIDForNNTPID s.group n).1
        | none => msgid0
      else msgid0
    else msgid0
  if env.validMessageID msgid && env.storeHasArticle msgid then
    match env.openMessage msgid with
    | none => (s, [.reply ("220 " ++ msgid), .sendArticle msgid])
    | some e => (s, [.reply ("503 idkwtf happened: " ++ e)])
  else (s, [.reply ("430 " ++ msgid)])

/-- The IHAVE command branch of handleLine.  Unlike TAKETHIS, after the
admission check only the reason is inspected (a non-nil err with an empty
reason still ingests). -/
def handleIhave (env : Env) (s : ConnState) (msgid : String) :
    ConnState × List Effect :=
  if !s.authenticated then (s, [.reply "483 You have not authenticated"])
  else if env.hasArticleLocal msgid || env.dbHasArticle msgid
      || env.articleBanned msgid then
    (s, [.reply "435 Article Not Wanted"])
  else
    match env.readHeader with
    | .error e => (s, [.reply "335 Send it plz", .reply ("436 Transfer failed: " ++ e)])
    | .ok hdr =>
        let cr := checkMIMEHeader env s hdr
        if cr.reason.length > 0 then
          (s, [.reply "335 Send it plz", .discardBody]
                ++ (if cr.ban then [.banArticle msgid cr.reason] else [])
                ++ [.reply "437 Rejected do not send again bro"])
        else
          let reference := hdr.references
          let newsgroup := hdr.newsgroups
          let ask :=
            if reference != "" && env.validMessageID reference
                && !env.storeHasArticle reference && !env.isExpired reference then
              [Effect.askForArticle reference newsgroup]
            else []
          let sm := storeMessage env hdr
          match sm.2 with
          | none => (s, [.reply "335 Send it plz"] ++ ask ++ sm.1 ++ [.reply "235 We got it"])
          | some e =>
              (s, [.reply "335 Send it plz"] ++ ask ++ sm.1
                    ++ [.reply ("437 Transfer Failed " ++ e)])

/-- strings.Trim(s, " ") of Go: strip spaces from both ends. -/
def trimSpaces (s : String) : String :=
  String.mk (((s.data.dropWhile (fun c => c == ' ')).reverse.dropWhile
    (fun c => c == ' ')).reverse)

/-- One iteration of the References loop of the POST branch: accumulates the
(possibly rewritten) header, the success flag, the reason and the effects. -/
def postRefStep (env : Env) (newsgroup : String)
    (acc : ArticleHeader × Bool × String × List Effect) (reference : String) :
    ArticleHeader × Bool × String × List Effect :=
  let h := acc.1
  let suc := acc.2.1
  let rsn := acc.2.2.1
  let effs := acc.2.2.2
  if reference != "" && env.validMessageID reference then
    if !env.storeHasArticle reference && !env.isExpired reference then
      (h, suc, rsn, effs ++ [Effect.askForArticle reference newsgroup])
    else
      let gh := env.getMIMEHeader reference
      if trimSpaces gh.references == "" then
        ({ h with references := gh.messageId }, suc, rsn, effs)
      else (h, suc, rsn, effs)
  else if reference != "" then
    (h, false, "cannot reply with invalid reference, maybe you are replying to a reply?", effs)
  else (h, suc, rsn, effs)

/-- The POST command branch of handleLine.  Note that the success flag is not
re-examined after storeMessage: a storeMessage error still replies 240. -/
def handlePost (env : Env) (s : ConnState) : ConnState × List Effect :=
  if !s.authenticated then (s, [.reply "440 Posting Not Allowed"])
  else
    let pre := [Effect.reply "340 Yeeeh postit yo; end with <CR-LF>.<CR-LF>"]
    match env.readHeader with
    | .error e => (s, pre ++ [.reply ("441 Posting Failed " ++ e)])
    | .ok hdr0 =>
        let hdr1 :=
          if hdr0.messageId == "" then { hdr0 with messageId := env.genMessageID }
          else hdr0
        -- hdr.Set(Date, now) is not observable here; the encrypted ip of the
        -- remote address is injected when the daemon resolves one
        let hdr2 :=
          match env.getEncAddress with
          | some ea => { hdr1 with encIp := ea }
          | none => hdr1
        let cr := checkMIMEHeader env s hdr2
        if cr.reason == "" && cr.err == none then
          let newsgroup := hdr2.newsgroups
          let folded := (goSplit hdr2.references).foldl
            (postRefStep env newsgroup) (hdr2, true, cr.reason, [])
          let hdr3 := folded.1
          let suc := folded.2.1
          let rsn := folded.2.2.1
          let refEffs := folded.2.2.2
          let smEffs :=
            if suc && env.hasNewsgroup newsgroup then (storeMessage env hdr3).1
            else []
          if suc then
            (s, pre ++ refEffs ++ smEffs ++ [.reply "240 We got it, thnkxbai"])
          else
            (s, pre ++ refEffs ++ smEffs ++ [.reply ("441 Posting Failed " ++ rsn)])
        else
          let rsn := match cr.err with | some e => e | none => cr.reason
          (s, pre ++ [.reply ("441 Posting Failed " ++ rsn)])

/-- The MODE command branch of handleLine (distinct from the no-mode MODE
handling in runConnection).  The 501 reply embeds the Go fmt output of a
format string without a verb followed by an extra argument. -/
def handleModeCmd (s : ConnState) (arg : String) : ConnState × List Effect :=
  let mode := goToUpper arg
  if mode == "READER" then
    ({ s with mode := "READER" },
      [.reply (if s.authenticated then "200 Posting Permitted" else "201 No posting Permitted")])
  else if mode == "STREAM" && s.authenticated then
    (s, [.reply "203 Streaming enabled brah"])
  else
    (s, [.reply ("501 invalid mode variant:%!(EXTRA string=" ++ arg ++ ")")])

/-- func (self *nntpConnection) handleLine: the reply-code arm followed by the
command dispatch.  Branches whose internals no claim touches keep their place
in the dispatch chain but emit an otherCommand effect.  The Except error case
embeds a Go runtime panic. -/
def handleLine (env : Env) (s : ConnState) (code : Int) (line : String) :
    Except String (ConnState × List Effect) :=
  let parts := goSplit line
  let msgid :=
    if code == 0 && parts.length > 1 then parts.getD 1 "" else parts.headD ""
  if code == 238 || code == 239 || code == 431 || code == 439 || code == 438 then
    .ok (handleReplyCode env.storeSize s code msgid, [])
  else
    if parts.length > 1 then
      let cmd := goToUpper (parts.headD "")
      if cmd == "MODE" then .ok (handleModeCmd s (parts.getD 1 ""))
      else if goHasPrefixStr line "QUIT" then .ok (s, [.reply "205 bai", .closeConn])
      else if cmd == "AUTHINFO" then handleAuthinfo env s parts line
      else if cmd == "CHECK" then .ok (handleCheck env s (parts.getD 1 ""))
      else if cmd == "TAKETHIS" then .ok (handleTakethis env s msgid)
      else if cmd == "ARTICLE" then .ok (handleArticle env s msgid)
      else if cmd == "IHAVE" then .ok (handleIhave env s (parts.getD 1 ""))
      else if cmd == "LISTGROUP" then .ok (s, [.otherCommand "LISTGROUP"])
      else if cmd == "NEWSGROUPS" then .ok (s, [.otherCommand "NEWSGROUPS"])
      else if cmd == "XOVER" then .ok (s, [.otherCommand "XOVER"])
      else if cmd == "HEAD" then .ok (s, [.otherCommand "HEAD"])
      else if cmd == "GROUP" then .ok (s, [.otherCommand "GROUP"])
      else if cmd == "LIST" && parts.getD 1 "" == "NEWSGROUPS" then
        .ok (s, [.otherCommand "LIST"])
      else if cmd == "STAT" then .ok (s, [.otherCommand "STAT"])
      else if cmd == "XHDR" then .ok (s, [.otherCommand "XHDR"])
      else .ok (s, [.reply ("500 Invalid command: " ++ cmd)])
    else
      if line == "LIST" then .ok (s, [.otherCommand "LIST"])
      else if line == "POST" then .ok (handlePost env s)
      else .ok (s, [.reply "500 wut?"])

/-- The CAPABILITIES dot-list written by the inbound no-mode dispatcher. -/
def capsList (env : Env) : List Effect :=
  let caps := ["VERSION 2", "READER", "STREAMING", "IMPLEMENTATION srndv2",
               "POST", "IHAVE", "AUTHINFO"]
  let caps := if env.canTLS then caps ++ ["STARTTLS"] else caps
  caps.map Effect.dotLine

/-- Parse-and-dispatch tail of the runConnection loop: a line whose first
token parses as an integer is a reply code and the rest of the line (after the
first four bytes) is handed to handleLine; otherwise the whole line is a
command.  Go slices line[4:] unconditionally, a panic when the line is
shorter. -/
def dispatchParsed (env : Env) (s : ConnState) (line : String) :
    Except String (ConnState × List Effect) :=
  match goParseInt ((goSplit line).headD "") with
  | some code =>
      if line.length < 4 then .error "runtime error: slice bounds out of range"
      else handleLine env s code (goDrop line 4)
  | none => handleLine env s 0 line

/-- One iteration of the inbound runConnection read loop (nntp.go lines 1563
to 1661): the QUIT check, then, while no mode is set, the special handling of
STARTTLS, CAPABILITIES and MODE, every other line falling through to
handleLine; once a mode is set every line goes to handleLine. -/
def inboundStep (env : Env) (s : ConnState) (line : String) :
    Except String (ConnState × List Effect) :=
  if goHasPrefixStr line "QUIT" then .ok (s, [.reply "205 bai", .closeConn])
  else if s.mode == "" then
    if line.length == 0 then .ok (s, [.closeConn])
    else
      let parts := goSplit line
      let cmd := parts.headD ""
      if cmd == "STARTTLS" then
        if env.handleStartTLSOk then
          .ok ({ s with authenticated := true }, [.startTLS])
        else .ok (s, [])
      else if cmd == "CAPABILITIES" then
        .ok (s, [.reply "101 i support to the following:"] ++ capsList env)
      else if cmd == "MODE" then
        if parts.length == 2 then
          let mode := goToUpper (parts.getD 1 "")
          if mode == "READER" then
            .ok ({ s with mode := "READER" }, [.reply "200 Posting is Permitted awee yeh"])
          else if mode == "STREAM" then
            if !s.authenticated then .ok (s, [.reply "483 Streaming Denied"])
            else
              .ok ({ s with mode := "STREAM" },
                [.reply "203 Stream it brah", .startStreaming])
          else .ok (s, [])
        else .ok (s, [])
      else
        -- the source re-tests cmd for STARTTLS here; that test cannot
        -- succeed because the branch above already caught it
        dispatchParsed env s line
  else
    dispatchParsed env s line

/-- A default oracle assignment used by concrete witnesses: nothing is known,
banned or valid unless a witness overrides a field. -/
def envDefault : Env where
  validMessageID := fun _ => false
  newsgroupValidFormat := fun _ => true
  serverPubkeyIsValid := fun _ => false
  verifyFrontendSig := fun _ _ _ => false
  pubkeyIsBanned := fun _ => false
  newsgroupBanned := fun _ => false
  storeHasArticle := fun _ => false
  articleBanned := fun _ => false
  dbHasArticle := fun _ => false
  hasArticleLocal := fun _ => false
  checkEncIPBanned := fun _ => (false, none)
  isExpired := fun _ => false
  allow_anon := false
  allow_anon_attachments := false
  allow_attachments := true
  policyAllows := none
  storeSize := fun _ => 0
  checkNNTPUserExists := fun _ => (true, none)
  checkNNTPLogin := fun _ _ => (true, none)
  readHeader := .error "EOF"
  createFileOk := fun _ => true
  writeHeaderErr := none
  processBodyErr := none
  getMessageIDForNNTPID := fun _ _ => ("", none)
  openMessage := fun _ => none
  getMIMEHeader := fun _ => {}
  hasNewsgroup := fun _ => true
  getEncAddress := none
  genMessageID := "<gen@test.tld>"
  instance_name := "test"
  canTLS := false
  handleStartTLSOk := false

/-- The operations of the backlog claim: offer submission, state transition,
resolution, and the reply-code handling of handleLine. -/
inductive StreamOp where
  | offer (msgid : String) (sz : Int)
  | setState (msgid st : String) (sz : Int)
  | processed (msgid : String)
  | reply (code : Int) (msgid : String)
deriving Repr, DecidableEq

/-- Run one operation on the connection state; sigma is the store size
oracle used by the 238 reply handling. -/
def applyOp (sigma : String → Int) (s : ConnState) : StreamOp → ConnState
  | .offer m sz => offerStream s m sz
  | .setState m st sz => messageSetPendingState s m st sz
  | .processed m => messageSetProcessed s m
  | .reply code m => handleReplyCode sigma s code m

/-- Guard under which a state-transition call preserves the backlog equation:
size zero, or the id already has a live pending entry.  Every call the code
makes except the takethis dequeue in handleStreaming passes size 0. -/
def opOK (s : ConnState) : StreamOp → Bool
  | .setState m _ sz => decide (sz = 0) || messageIsQueued s m
  | _ => true

/-- The guard holds at every step of the run. -/
def opsOK (sigma : String → Int) : ConnState → List StreamOp → Bool
  | _, [] => true
  | s, op :: rest => opOK s op && opsOK sigma (applyOp sigma s op) rest

/-! ### Concrete states, headers and environments used by witnesses -/

def streamConn : ConnState := { freshConn with mode := "STREAM", authenticated := true }

def authedConn : ConnState := { freshConn with authenticated := true }

def userConn : ConnState := { freshConn with username := "alice" }

def envLoginBad : Env := { envDefault with checkNNTPLogin := fun _ _ => (false, none) }

def envLoginErr : Env :=
  { envDefault with checkNNTPLogin := fun _ _ => (false, some "db error") }

def envUserMissing : Env :=
  { envDefault with checkNNTPUserExists := fun _ => (false, none) }

def envUserErr : Env :=
  { envDefault with checkNNTPUserExists := fun _ => (false, some "db down") }

def envC4 : Env := { envDefault with
  validMessageID := fun m => m == "<a@b>"
  storeHasArticle := fun m => m == "<a@b>" }

def envC7 : Env := { envDefault with storeHasArticle := fun m => m == "<c@d>" }

/-- C1 second scenario: the message-id itself is the only valid one. -/
def envC1b : Env := { envDefault with
  validMessageID := fun m => m == "<ok@x>"
  allow_anon := true }

def hdrC1 : ArticleHeader :=
  { newsgroups := "overchan.test", references := "r", messageId := "m",
    contentType := "text/plain" }

def hdrC1b : ArticleHeader :=
  { newsgroups := "overchan.test", references := "bad", messageId := "<ok@x>",
    contentType := "text/plain" }

def envC2 : Env := { envDefault with validMessageID := fun _ => true }

def hdrC2 : ArticleHeader :=
  { newsgroups := "overchan.test", messageId := "<t@x>", torPoster := "1",
    encIp := "enc" }

def envC2w : Env := { envDefault with
  validMessageID := fun _ => true
  allow_anon := true }

def hdrC2w : ArticleHeader := { newsgroups := "overchan.test", messageId := "<w@x>" }

def hdrPost : ArticleHeader := { newsgroups := "overchan.test", messageId := "<p@x>" }

def envAccept : Env := { envDefault with
  validMessageID := fun _ => true
  allow_anon := true
  readHeader := .ok hdrPost }

def envC9 : Env := { envAccept with processBodyErr := some "disk full" }

def envDup : Env := { envAccept with createFileOk := fun _ => false }

/-! ## Pending-table lemmas -/

theorem sumSz_cons (ev : SyncEv) (p : List SyncEv) :
    sumSz (ev :: p) = ev.sz + sumSz p := by
  simp [sumSz]

theorem sumSz_map_of_sz_eq (f : SyncEv → SyncEv)
    (hf : ∀ ev, (f ev).sz = ev.sz) :
    ∀ p : List SyncEv, sumSz (p.map f) = sumSz p
  | [] => rfl
  | a :: t => by
      have ih := sumSz_map_of_sz_eq f hf t
      simp only [List.map_cons, sumSz_cons]
      rw [hf, ih]

theorem keys_map_of_msgid_eq (f : SyncEv → SyncEv)
    (hf : ∀ ev, (f ev).msgid = ev.msgid) :
    ∀ p : List SyncEv,
      (p.map f).map (fun ev => ev.msgid) = p.map (fun ev => ev.msgid)
  | [] => rfl
  | a :: t => by
      have ih := keys_map_of_msgid_eq f hf t
      simp only [List.map_cons]
      rw [hf, ih]

theorem not_mem_keys_of_find?_none (p : List SyncEv) (m : String)
    (h : p.find? (fun ev => ev.msgid == m) = none) :
    m ∉ p.map (fun ev => ev.msgid) := by
  intro hmem
  rcases List.mem_map.mp hmem with ⟨ev, hev, heq⟩
  have hne := List.find?_eq_none.mp h ev hev
  simp [heq] at hne

theorem filter_ne_of_not_mem (p : List SyncEv) (m : String)
    (h : m ∉ p.map (fun ev => ev.msgid)) :
    p.filter (fun e => !(e.msgid == m)) = p := by
  apply List.filter_eq_self.mpr
  intro a ha
  simp only [Bool.not_eq_true', beq_eq_false_iff_ne, ne_eq]
  intro hc
  exact h (List.mem_map.mpr ⟨a, ha, hc⟩)

theorem setStateFn_sz (m st : String) (ev : SyncEv) :
    (setStateFn m st ev).sz = ev.sz := by
  unfold setStateFn
  by_cases h : (ev.msgid == m) = true <;> simp [h]

theorem setStateFn_msgid (m st : String) (ev : SyncEv) :
    (setStateFn m st ev).msgid = ev.msgid := by
  unfold setStateFn
  by_cases h : (ev.msgid == m) = true <;> simp [h]

theorem find?_cons_pos (a : SyncEv) (t : List SyncEv) (m : String)
    (h : (a.msgid == m) = true) :
    (a :: t).find? (fun e => e.msgid == m) = some a := by
  simp [List.find?_cons, h]

theorem find?_cons_neg (a : SyncEv) (t : List SyncEv) (m : String)
    (h : (a.msgid == m) = false) :
    (a :: t).find? (fun e => e.msgid == m) = t.find? (fun e => e.msgid == m) := by
  simp [List.find?_cons, h]

theorem sumSz_erase (m : String) (ev : SyncEv) :
    ∀ p : List SyncEv, keysNodup p →
      p.find? (fun e => e.msgid == m) = some ev →
      sumSz (p.filter (fun e => !(e.msgid == m))) = sumSz p - ev.sz
  | [], _, hf => by simp at hf
  | a :: t, hnd, hf => by
      have hnd' : (a.msgid ∉ t.map (fun e => e.msgid)) ∧ keysNodup t := by
        simpa [keysNodup, List.nodup_cons] using hnd
      by_cases h : (a.msgid == m) = true
      · have hav : a = ev := by
          rw [find?_cons_pos a t m h] at hf
          exact Option.some.inj hf
        have ham : a.msgid = m := by simpa using h
        have hft : t.filter (fun e => !(e.msgid == m)) = t :=
          filter_ne_of_not_mem t m (ham ▸ hnd'.1)
        have hdrop : (a :: t).filter (fun e => !(e.msgid == m)) = t := by
          rw [List.filter_cons, if_neg (by simp [h]), hft]
        rw [hdrop, hav, sumSz_cons]
        omega
      · have hf' : t.find? (fun e => e.msgid == m) = some ev := by
          rw [find?_cons_neg a t m (by simpa using h)] at hf
          exact hf
        have ih := sumSz_erase m ev t hnd'.2 hf'
        have hkeep : (a :: t).filter (fun e => !(e.msgid == m))
            = a :: t.filter (fun e => !(e.msgid == m)) := by
          rw [List.filter_cons, if_pos (by simp [h])]
        rw [hkeep, sumSz_cons, sumSz_cons, ih]
        omega

theorem keysNodup_filter (p : List SyncEv) (q : SyncEv → Bool)
    (h : keysNodup p) : keysNodup (p.filter q) :=
  List.Nodup.sublist ((List.filter_sublist p).map (fun ev => ev.msgid)) h

/-! ## Invariant preservation by the streaming operations -/

theorem StateInv_freshConn : StateInv freshConn := by
  constructor
  · simp [keysNodup, freshConn]
  · rfl

theorem StateInv_setPending (s : ConnState) (m st : String) (sz : Int)
    (hInv : StateInv s) (hok : sz = 0 ∨ messageIsQueued s m = true) :
    StateInv (messageSetPendingState s m st sz) := by
  obtain ⟨hnd, hsum⟩ := hInv
  unfold messageSetPendingState setPendingList
  by_cases hq : (s.pending.find? (fun ev => ev.msgid == m)).isSome
  · rw [if_pos hq]
    refine ⟨?_, ?_⟩
    · show keysNodup (s.pending.map (setStateFn m st))
      unfold keysNodup
      rw [keys_map_of_msgid_eq _ (setStateFn_msgid m st)]
      exact hnd
    · show s.backlog = sumSz (s.pending.map (setStateFn m st))
      rw [sumSz_map_of_sz_eq _ (setStateFn_sz m st)]
      exact hsum
  · rw [if_neg hq]
    have hz : sz = 0 := by
      rcases hok with h | h
      · exact h
      · exact absurd h (by simpa [messageIsQueued, pendingFind] using hq)
    have hnone : s.pending.find? (fun ev => ev.msgid == m) = none :=
      Option.not_isSome_iff_eq_none.mp hq
    refine ⟨?_, ?_⟩
    · show keysNodup (⟨m, sz, st⟩ :: s.pending)
      unfold keysNodup
      rw [List.map_cons, List.nodup_cons]
      exact ⟨not_mem_keys_of_find?_none _ _ hnone, hnd⟩
    · show s.backlog = sumSz (⟨m, sz, st⟩ :: s.pending)
      rw [sumSz_cons, hz, hsum]
      show sumSz s.pending = 0 + sumSz s.pending
      omega

theorem StateInv_processed (s : ConnState) (m : String) (hInv : StateInv s) :
    StateInv (messageSetProcessed s m) := by
  obtain ⟨hnd, hsum⟩ := hInv
  unfold messageSetProcessed pendingFind
  cases hf : s.pending.find? (fun ev => ev.msgid == m) with
  | none => exact ⟨hnd, hsum⟩
  | some ev =>
      refine ⟨keysNodup_filter _ _ hnd, ?_⟩
      show s.backlog - ev.sz = sumSz (s.pending.filter (fun e => !(e.msgid == m)))
      rw [sumSz_erase m ev s.pending hnd hf, hsum]

theorem StateInv_offer (s : ConnState) (m : String) (sz : Int)
    (hInv : StateInv s) : StateInv (offerStream s m sz) := by
  obtain ⟨hnd, hsum⟩ := hInv
  unfold offerStream
  by_cases hq : messageIsQueued s m = true
  · rw [if_pos hq]
    exact ⟨hnd, hsum⟩
  · rw [if_neg hq]
    have hnone : s.pending.find? (fun ev => ev.msgid == m) = none := by
      cases hf : s.pending.find? (fun ev => ev.msgid == m) with
      | none => rfl
      | some v =>
          exfalso
          apply hq
          unfold messageIsQueued pendingFind
          rw [hf]
          rfl
    refine ⟨?_, ?_⟩
    · show keysNodup (setPendingList s.pending m "queued" sz)
      unfold setPendingList
      rw [if_neg (by rw [hnone]; simp)]
      unfold keysNodup
      rw [List.map_cons, List.nodup_cons]
      exact ⟨not_mem_keys_of_find?_none _ _ hnone, hnd⟩
    · show s.backlog + sz = sumSz (setPendingList s.pending m "queued" sz)
      unfold setPendingList
      rw [if_neg (by rw [hnone]; simp)]
      rw [sumSz_cons, hsum]
      show sumSz s.pending + sz = sz + sumSz s.pending
      omega

theorem count_le_one_of_keysNodup (m : String) :
    ∀ p : List SyncEv, keysNodup p →
      (p.filter (fun ev => ev.msgid == m)).length ≤ 1
  | [], _ => by simp
  | a :: t, hnd => by
      have hnd' : (a.msgid ∉ t.map (fun e => e.msgid)) ∧ keysNodup t := by
        simpa [keysNodup, List.nodup_cons] using hnd
      by_cases h : (a.msgid == m) = true
      · have ham : a.msgid = m := by simpa using h
        have hft : t.filter (fun ev => ev.msgid == m) = [] := by
          apply List.filter_eq_nil_iff.mpr
          intro e he
          simp only [Bool.not_eq_true, beq_eq_false_iff_ne, ne_eq]
          intro hc
          exact hnd'.1 (List.mem_map.mpr ⟨e, he, by rw [hc, ham]⟩)
        rw [List.filter_cons, if_pos h, hft]
        simp
      · have hkeep : (a :: t).filter (fun ev => ev.msgid == m)
            = t.filter (fun ev => ev.msgid == m) := by
          rw [List.filter_cons, if_neg (by simp [h])]
        rw [hkeep]
        exact count_le_one_of_keysNodup m t hnd'.2

theorem StateInv_replyCode (sigma : String → Int) (s : ConnState)
    (code : Int) (m : String) (hInv : StateInv s) :
    StateInv (handleReplyCode sigma s code m) := by
  unfold handleReplyCode
  by_cases h238 : (code == 238) = true
  · rw [if_pos h238]
    by_cases hd : (m == nntpDummyArticle) = true
    · rw [if_pos hd]; exact hInv
    · rw [if_neg hd]
      have h := StateInv_setPending s m "takethis" 0 hInv (Or.inl rfl)
      exact h
  · rw [if_neg h238]
    by_cases h239 : (code == 239) = true
    · rw [if_pos h239]; exact StateInv_processed s m hInv
    · rw [if_neg h239]
      by_cases h431 : (code == 431) = true
      · rw [if_pos h431]
        by_cases hd : (m == nntpDummyArticle) = true
        · rw [if_pos hd]; exact hInv
        · rw [if_neg hd]; exact StateInv_processed s m hInv
      · rw [if_neg h431]
        by_cases h439 : (code == 439) = true
        · rw [if_pos h439]
          by_cases hd : (m == nntpDummyArticle) = true
          · rw [if_pos hd]; exact hInv
          · rw [if_neg hd]; exact StateInv_processed s m hInv
        · rw [if_neg h439]
          by_cases h438 : (code == 438) = true
          · rw [if_pos h438]
            by_cases hd : (m == nntpDummyArticle) = true
            · rw [if_pos hd]; exact hInv
            · rw [if_neg hd]; exact StateInv_processed s m hInv
          · rw [if_neg h438]; exact hInv

theorem StateInv_applyOp (sigma : String → Int) (s : ConnState) (op : StreamOp)
    (hInv : StateInv s) (hok : opOK s op = true) :
    StateInv (applyOp sigma s op) := by
  cases op with
  | offer m sz => exact StateInv_offer s m sz hInv
  | setState m st sz =>
      apply StateInv_setPending s m st sz hInv
      unfold opOK at hok
      rcases (Bool.or_eq_true _ _).mp hok with h | h
      · exact Or.inl (of_decide_eq_true h)
      · exact Or.inr h
  | processed m => exact StateInv_processed s m hInv
  | reply code m => exact StateInv_replyCode sigma s code m hInv

theorem StateInv_foldl (sigma : String → Int) :
    ∀ (ops : List StreamOp) (s : ConnState), StateInv s →
      opsOK sigma s ops = true → StateInv (ops.foldl (applyOp sigma) s)
  | [], _, h, _ => h
  | op :: rest, s, h, hok => by
      have h2 : opOK s op = true ∧ opsOK sigma (applyOp sigma s op) rest = true := by
        have hok' := hok
        unfold opsOK at hok'
        exact (Bool.and_eq_true _ _).mp hok'
      rw [List.foldl_cons]
      exact StateInv_foldl sigma rest _ (StateInv_applyOp sigma s op h h2.1) h2.2

theorem StateInv_foldl_offers :
    ∀ (offers : List (String × Int)) (s : ConnState), StateInv s →
      StateInv (offers.foldl (fun t pr => offerStream t pr.1 pr.2) s)
  | [], _, h => h
  | pr :: rest, s, h => by
      rw [List.foldl_cons]
      exact StateInv_foldl_offers rest _ (StateInv_offer s pr.1 pr.2 h)


/-! ## Claim theorems -/

/-- C3 counterexample: the single state-transition operation
messageSetPendingState with a nonzero size on an id that is not pending,
run from a fresh connection, inserts the size into the pending table but
leaves the backlog counter at zero, so the backlog does not equal the sum of
the recorded sizes. -/
theorem backlog_sum_counterexample :
    ¬ ((([StreamOp.setState "<x@y>" "takethis" 100].foldl
          (applyOp (fun _ => 0)) freshConn)).backlog
        = sumSz (([StreamOp.setState "<x@y>" "takethis" 100].foldl
          (applyOp (fun _ => 0)) freshConn)).pending) := by
  decide

/-- C3 (amended): for every sequence of offer, state-transition and resolve
operations (offerStream, messageSetPendingState, messageSetProcessed, and the
reply-code handling of handleLine) starting from a fresh connection, in which
every messageSetPendingState call carries size 0 or targets an id that
already has a live pending entry, the backlog counter equals the sum of the
recorded sizes over the pending table. -/
theorem backlog_eq_pending_sum (sigma : String → Int) (ops : List StreamOp)
    (hok : opsOK sigma freshConn ops = true) :
    (ops.foldl (applyOp sigma) freshConn).backlog
      = sumSz (ops.foldl (applyOp sigma) freshConn).pending :=
  (StateInv_foldl sigma ops freshConn StateInv_freshConn hok).2

/-- Witness for C3 at a concrete run: offer, 238 reply, takethis transition
on the pending id, then a 239 resolution. -/
theorem backlog_eq_pending_sum_witness :
    opsOK (fun _ => 7) freshConn
        [StreamOp.offer "<a@b>" 10, StreamOp.reply 238 "<a@b>",
         StreamOp.setState "<a@b>" "takethis" 7, StreamOp.reply 239 "<a@b>"] = true ∧
    (([StreamOp.offer "<a@b>" 10, StreamOp.reply 238 "<a@b>",
       StreamOp.setState "<a@b>" "takethis" 7, StreamOp.reply 239 "<a@b>"].foldl
        (applyOp (fun _ => 7)) freshConn)).backlog
      = sumSz (([StreamOp.offer "<a@b>" 10, StreamOp.reply 238 "<a@b>",
       StreamOp.setState "<a@b>" "takethis" 7, StreamOp.reply 239 "<a@b>"].foldl
        (applyOp (fun _ => 7)) freshConn)).pending :=
  ⟨by decide, backlog_eq_pending_sum (fun _ => 7) _ (by decide)⟩

/-- C5: offerStream on an id that already has a live pending entry is a
no-op (backlog, pending table and check channel are all unchanged), and after
any sequence of offerStream calls from a fresh connection every message-id
has at most one live pending entry. -/
theorem offerStream_noop_and_at_most_once :
    (∀ (s : ConnState) (m : String) (sz : Int),
        messageIsQueued s m = true → offerStream s m sz = s) ∧
    (∀ (offers : List (String × Int)) (m : String),
        ((offers.foldl (fun t pr => offerStream t pr.1 pr.2) freshConn).pending.filter
          (fun ev => ev.msgid == m)).length ≤ 1) := by
  constructor
  · intro s m sz h
    unfold offerStream
    rw [if_pos h]
  · intro offers m
    exact count_le_one_of_keysNodup m _
      (StateInv_foldl_offers offers freshConn StateInv_freshConn).1

/-- Witness for C5: a duplicate offer of the same id changes nothing, and the
run with the duplicate keeps a single pending entry. -/
theorem offerStream_noop_and_at_most_once_witness :
    offerStream (offerStream freshConn "<a@b>" 3) "<a@b>" 5
        = offerStream freshConn "<a@b>" 3 ∧
    (([("<a@b>", (3 : Int)), ("<a@b>", 5)].foldl
        (fun t pr => offerStream t pr.1 pr.2) freshConn).pending.filter
      (fun ev => ev.msgid == "<a@b>")).length ≤ 1 :=
  ⟨offerStream_noop_and_at_most_once.1 (offerStream freshConn "<a@b>" 3) "<a@b>" 5
      (by decide),
   offerStream_noop_and_at_most_once.2 [("<a@b>", 3), ("<a@b>", 5)] "<a@b>"⟩

/-- C6: for each of the reply codes 238, 239, 431, 438 and 439, a reply line
carrying the dummy message-id leaves the connection state (pending table,
backlog, takethis channel) unchanged and produces no effect, provided the
dummy id has no live pending entry (no code path ever inserts it). -/
theorem dummy_reply_frame (env : Env) (s : ConnState) (code : Int)
    (hc : code = 238 ∨ code = 239 ∨ code = 431 ∨ code = 438 ∨ code = 439)
    (hd : messageIsQueued s nntpDummyArticle = false) :
    handleLine env s code nntpDummyArticle = .ok (s, []) := by
  have hnone : pendingFind s.pending nntpDummyArticle = none := by
    cases hf : pendingFind s.pending nntpDummyArticle with
    | none => rfl
    | some v =>
        exfalso
        unfold messageIsQueued at hd
        rw [hf] at hd
        simp at hd
  have hproc : messageSetProcessed s nntpDummyArticle = s := by
    unfold messageSetProcessed
    rw [hnone]
  have hs : goSplit nntpDummyArticle = [nntpDummyArticle] := rfl
  rcases hc with h | h | h | h | h <;> subst h <;>
    simp [handleLine, hs, handleReplyCode, hproc]

/-- Witness for C6 at code 239 on a fresh connection. -/
theorem dummy_reply_frame_witness :
    ((239 : Int) = 238 ∨ (239 : Int) = 239 ∨ (239 : Int) = 431
        ∨ (239 : Int) = 438 ∨ (239 : Int) = 439) ∧
    messageIsQueued freshConn nntpDummyArticle = false ∧
    handleLine envDefault freshConn 239 nntpDummyArticle = .ok (freshConn, []) :=
  ⟨Or.inr (Or.inl rfl), by decide,
   dummy_reply_frame envDefault freshConn 239 (Or.inr (Or.inl rfl)) (by decide)⟩

/-- C4 counterexample: on an inbound connection with no mode set, an ARTICLE
command is not ignored: it reaches the article branch of the command handler,
which serves the stored article with a 220 reply. -/
theorem nomode_article_executes :
    freshConn.mode = "" ∧
    inboundStep envC4 freshConn "ARTICLE <a@b>" =
      .ok (freshConn, [.reply "220 <a@b>", .sendArticle "<a@b>"]) :=
  ⟨rfl, rfl⟩

/-- C4 (amended): on an inbound connection with no mode set, STARTTLS,
CAPABILITIES, MODE and QUIT receive special handling, but every other
nonempty command line (whose first token is not a reply code) falls through
to the general command dispatcher handleLine and is executed there; AUTHINFO
is accepted via this fallthrough, and so are article, streaming and reader
commands. -/
theorem nomode_falls_through (env : Env) (s : ConnState) (line : String)
    (hm : s.mode = "")
    (hq : goHasPrefixStr line "QUIT" = false)
    (hlen : (line.length == 0) = false)
    (h1 : ((goSplit line).headD "" == "STARTTLS") = false)
    (h2 : ((goSplit line).headD "" == "CAPABILITIES") = false)
    (h3 : ((goSplit line).headD "" == "MODE") = false)
    (hn : goParseInt ((goSplit line).headD "") = none) :
    inboundStep env s line = handleLine env s 0 line := by
  simp only [inboundStep, dispatchParsed]
  rw [if_neg (by simp [hq]), if_pos (by simp [hm]), if_neg (by simp [hlen]),
      if_neg (by simpa using h1), if_neg (by simpa using h2),
      if_neg (by simpa using h3), hn]

/-- Witness for C4 at a concrete CHECK command with no mode set. -/
theorem nomode_falls_through_witness :
    inboundStep envC4 freshConn "CHECK <a@b>"
      = handleLine envC4 freshConn 0 "CHECK <a@b>" :=
  nomode_falls_through envC4 freshConn "CHECK <a@b>" rfl rfl rfl rfl rfl rfl rfl

/-- C7: the inbound CHECK command replies 431 with the offered message-id
when the connection is not in STREAM mode; in STREAM mode it replies 438 with
the id when the store already has the article or the article is banned, and
238 with the id otherwise. -/
theorem check_semantics (env : Env) (s : ConnState) (m : String) :
    ((s.mode == "STREAM") = false →
      handleCheck env s m = (s, [.reply ("431 " ++ m)])) ∧
    ((s.mode == "STREAM") = true →
      (env.storeHasArticle m || env.articleBanned m) = true →
      handleCheck env s m = (s, [.reply ("438 " ++ m)])) ∧
    ((s.mode == "STREAM") = true →
      env.storeHasArticle m = false → env.articleBanned m = false →
      handleCheck env s m = (s, [.reply ("238 " ++ m)])) := by
  refine ⟨?_, ?_, ?_⟩
  · intro h
    simp [handleCheck, bne, h]
  · intro h hor
    cases hsa : env.storeHasArticle m with
    | true => simp [handleCheck, bne, h, hsa]
    | false =>
        rw [hsa] at hor
        simp only [Bool.false_or] at hor
        simp [handleCheck, bne, h, hsa, hor]
  · intro h h1 h2
    simp [handleCheck, bne, h, h1, h2]

/-- Witness for C7: the three replies at concrete states and store contents. -/
theorem check_semantics_witness :
    handleCheck envC7 freshConn "<c@d>" = (freshConn, [.reply "431 <c@d>"]) ∧
    handleCheck envC7 streamConn "<c@d>" = (streamConn, [.reply "438 <c@d>"]) ∧
    handleCheck envC7 streamConn "<e@f>" = (streamConn, [.reply "238 <e@f>"]) :=
  ⟨(check_semantics envC7 freshConn "<c@d>").1 rfl,
   (check_semantics envC7 streamConn "<c@d>").2.1 rfl rfl,
   (check_semantics envC7 streamConn "<e@f>").2.2 rfl rfl rfl⟩

theorem length_beq_zero_false_of_ne (s : String) (h : s ≠ "") :
    (s.length == 0) = false := by
  simp only [beq_eq_false_iff_ne, ne_eq]
  intro hl
  apply h
  cases s with
  | mk data =>
      cases data with
      | nil => rfl
      | cons c cs => simp [String.length] at hl

/-- C8: inbound AUTHINFO: USER stores the argument as the pending username
and replies 381; PASS with no prior USER replies 482; with a prior USER the
credentials are checked and the reply is 281 (setting the authenticated
flag) when the check reports valid, 481 when invalid without a lookup error,
and 501 when the lookup errored, the state otherwise unchanged. -/
theorem authinfo_semantics (env : Env) (s : ConnState) (u y line : String) :
    (handleAuthinfo env s ["AUTHINFO", "USER", u] line
        = .ok ({ s with username := u }, [.reply "381 Password required"])) ∧
    (s.username = "" →
      handleAuthinfo env s ["AUTHINFO", "PASS", y] line
        = .ok (s, [.reply "482 Authentication commands issued out of sequence"])) ∧
    (∀ e1, s.username ≠ "" → 14 ≤ line.length →
      env.checkNNTPUserExists s.username = (true, e1) →
      ((∀ e2, env.checkNNTPLogin s.username (goDrop line 14) = (true, e2) →
          handleAuthinfo env s ["AUTHINFO", "PASS", y] line
            = .ok ({ s with authenticated := true },
                [.reply "281 Authentication accepted"])) ∧
       (env.checkNNTPLogin s.username (goDrop line 14) = (false, none) →
          handleAuthinfo env s ["AUTHINFO", "PASS", y] line
            = .ok (s, [.reply "481 Authentication rejected"])) ∧
       (∀ msg, env.checkNNTPLogin s.username (goDrop line 14) = (false, some msg) →
          handleAuthinfo env s ["AUTHINFO", "PASS", y] line
            = .ok (s, [.reply "501 error while logging in"])))) ∧
    (s.username ≠ "" → env.checkNNTPUserExists s.username = (false, none) →
      handleAuthinfo env s ["AUTHINFO", "PASS", y] line
        = .ok (s, [.reply "481 Authentication rejected"])) ∧
    (∀ msg, s.username ≠ "" →
      env.checkNNTPUserExists s.username = (false, some msg) →
      handleAuthinfo env s ["AUTHINFO", "PASS", y] line
        = .ok (s, [.reply "501 error while logging in"])) := by
  have hP : goToUpper "PASS" = "PASS" := rfl
  refine ⟨rfl, ?_, ?_, ?_, ?_⟩
  · intro h
    simp [handleAuthinfo, h, hP]
  · intro e1 hne hlen hex
    have hl : (s.username.length == 0) = false := length_beq_zero_false_of_ne _ hne
    have hL : ¬(line.length < 14) := by omega
    refine ⟨?_, ?_, ?_⟩
    · intro e2 hlog
      simp [handleAuthinfo, hl, hL, hex, hlog, hP]
    · intro hlog
      simp [handleAuthinfo, hl, hL, hex, hlog, hP]
    · intro msg hlog
      simp [handleAuthinfo, hl, hL, hex, hlog, hP]
  · intro hne hex
    have hl : (s.username.length == 0) = false := length_beq_zero_false_of_ne _ hne
    simp [handleAuthinfo, hl, hex, hP]
  · intro msg hne hex
    have hl : (s.username.length == 0) = false := length_beq_zero_false_of_ne _ hne
    simp [handleAuthinfo, hl, hex, hP]

/-- Witness for C8: the five replies at concrete credentials. -/
theorem authinfo_semantics_witness :
    handleAuthinfo envDefault freshConn ["AUTHINFO", "USER", "alice"] "AUTHINFO USER alice"
      = .ok ({ freshConn with username := "alice" }, [.reply "381 Password required"]) ∧
    handleAuthinfo envDefault freshConn ["AUTHINFO", "PASS", "pw"] "AUTHINFO PASS pw"
      = .ok (freshConn, [.reply "482 Authentication commands issued out of sequence"]) ∧
    handleAuthinfo envDefault userConn ["AUTHINFO", "PASS", "pw"] "AUTHINFO PASS pw"
      = .ok ({ userConn with authenticated := true },
          [.reply "281 Authentication accepted"]) ∧
    handleAuthinfo envLoginBad userConn ["AUTHINFO", "PASS", "pw"] "AUTHINFO PASS pw"
      = .ok (userConn, [.reply "481 Authentication rejected"]) ∧
    handleAuthinfo envLoginErr userConn ["AUTHINFO", "PASS", "pw"] "AUTHINFO PASS pw"
      = .ok (userConn, [.reply "501 error while logging in"]) ∧
    handleAuthinfo envUserMissing userConn ["AUTHINFO", "PASS", "pw"] "AUTHINFO PASS pw"
      = .ok (userConn, [.reply "481 Authentication rejected"]) ∧
    handleAuthinfo envUserErr userConn ["AUTHINFO", "PASS", "pw"] "AUTHINFO PASS pw"
      = .ok (userConn, [.reply "501 error while logging in"]) :=
  ⟨(authinfo_semantics envDefault freshConn "alice" "pw" "AUTHINFO USER alice").1,
   (authinfo_semantics envDefault freshConn "x" "pw" "AUTHINFO PASS pw").2.1 rfl,
   ((authinfo_semantics envDefault userConn "x" "pw" "AUTHINFO PASS pw").2.2.1
      none (by decide) (by decide) rfl).1 none rfl,
   ((authinfo_semantics envLoginBad userConn "x" "pw" "AUTHINFO PASS pw").2.2.1
      none (by decide) (by decide) rfl).2.1 rfl,
   ((authinfo_semantics envLoginErr userConn "x" "pw" "AUTHINFO PASS pw").2.2.1
      none (by decide) (by decide) rfl).2.2 "db error" rfl,
   (authinfo_semantics envUserMissing userConn "x" "pw" "AUTHINFO PASS pw").2.2.2.1
      (by decide) rfl,
   (authinfo_semantics envUserErr userConn "x" "pw" "AUTHINFO PASS pw").2.2.2.2
      "db down" (by decide) rfl⟩

/-- C10: the AUTHINFO USER arm evaluates parts[2] on a two-token line and the
PASS arm slices line[14:] on a 13-byte line; both are out-of-bounds accesses
(Go runtime panics), embedded as the error case.  The claim that these lines
are handled without reading past the end is refuted by evaluation. -/
theorem authinfo_out_of_bounds :
    handleLine envDefault freshConn 0 "AUTHINFO USER"
      = .error "runtime error: index out of range" ∧
    handleLine envDefault userConn 0 "AUTHINFO PASS"
      = .error "runtime error: slice bounds out of range" :=
  ⟨rfl, rfl⟩

/-- C1: the rule-7 predicate of checkMIMEHeaderNoAuth, as written in the
source, does not ban a header whose message-id is invalid when its non-empty
reference is also invalid (first conjunct: the filter falls through to the
anonymous-poster rule instead), nor a header with a valid message-id and an
invalid non-empty reference (second conjunct: the article is accepted). -/
theorem rule7_divergence :
    (envDefault.validMessageID hdrC1.messageId = false ∧
     hdrC1.references ≠ "" ∧
     envDefault.validMessageID hdrC1.references = false ∧
     checkMIMEHeaderNoAuth envDefault hdrC1
       = ⟨"no anon posts allowed", true, none⟩) ∧
    (envC1b.validMessageID hdrC1b.messageId = true ∧
     hdrC1b.references ≠ "" ∧
     envC1b.validMessageID hdrC1b.references = false ∧
     checkMIMEHeaderNoAuth envC1b hdrC1b = ⟨"", false, none⟩) :=
  ⟨⟨rfl, by decide, rfl, rfl⟩, ⟨rfl, by decide, rfl, rfl⟩⟩

/-- C2 counterexample: a header carrying X-Tor-Poster and X-Encrypted-Ip (so
not all three anonymity headers are absent) is still handled by the
anonymous-poster branch: with allow_anon off the filter returns the
anonymous-branch ban, because the source condition is a disjunction, not the
conjunction of absences the claim states. -/
theorem anon_branch_counterexample :
    specAnonPoster hdrC2 = false ∧ anonPoster hdrC2 = true ∧
    checkMIMEHeaderNoAuth envC2 hdrC2 = ⟨"no anon posts allowed", true, none⟩ :=
  ⟨rfl, rfl, rfl⟩

/-- C2 (amended): when none of the earlier admission rules fires, the filter
takes the anonymous-poster branch exactly when X-Tor-Poster is present or
X-I2p-Desthash is present or X-Encrypted-Ip is absent; inside that branch the
article is accepted precisely when allow_anon holds and, if the Content-Type
begins with multipart/mixed, additionally allow_anon_attachments and
allow_attachments hold, the three rejections being bans; outside that branch
none of the anonymous-branch reasons is produced. -/
theorem anon_branch_semantics (env : Env) (hdr : ArticleHeader)
    (hfp : env.serverPubkeyIsValid hdr.frontendPubkey = false)
    (hfp2 : hdr.frontendPubkey = "")
    (hg : env.newsgroupValidFormat hdr.newsgroups = true)
    (hgb : env.newsgroupBanned hdr.newsgroups = false)
    (hpk : env.pubkeyIsBanned hdr.pubkey = false)
    (hpol : env.policyAllows = none)
    (hmid : env.validMessageID hdr.messageId = true)
    (hsh : env.storeHasArticle hdr.messageId = false)
    (hab : env.articleBanned hdr.messageId = false)
    (hrb : (hdr.references != "" && env.articleBanned hdr.references) = false)
    (hdb : env.dbHasArticle hdr.messageId = false)
    (hctl : (hdr.newsgroups == "ctl" && hdr.pubkey != "") = false) :
    (anonPoster hdr = true →
      checkMIMEHeaderNoAuth env hdr =
        (if env.allow_anon then
          if goHasPrefixStr hdr.contentType "multipart/mixed" then
            if env.allow_anon_attachments then
              if env.allow_attachments then ⟨"", false, none⟩
              else ⟨"no attachments allowed", true, none⟩
            else ⟨"no anon attachments", true, none⟩
          else ⟨"", false, none⟩
        else ⟨"no anon posts allowed", true, none⟩)) ∧
    (anonPoster hdr = false →
      (checkMIMEHeaderNoAuth env hdr).reason ≠ "no anon posts allowed" ∧
      (checkMIMEHeaderNoAuth env hdr).reason ≠ "no anon attachments" ∧
      (checkMIMEHeaderNoAuth env hdr).reason ≠ "no attachments allowed") := by
  have hbase : checkMIMEHeaderNoAuth env hdr = checkRules env hdr := by
    unfold checkMIMEHeaderNoAuth
    rw [if_neg (by simp [hfp]), if_neg (by simp [hfp2])]
  constructor
  · intro hanon
    rw [hbase]
    unfold checkRules
    rw [if_neg (by simp [hg]), if_neg (by simp [hgb]), if_neg (by simp [hpk]),
        if_neg (by rw [hpol]; simp), if_neg (by simp [hmid]), if_neg (by simp [hsh]),
        if_neg (by simp [hab]), if_neg (by simp [hrb]), if_neg (by simp [hdb]),
        if_neg (by simp [hctl]), if_pos (by simpa [anonPoster] using hanon)]
  · intro hanon
    rw [hbase]
    unfold checkRules checkAttachTail
    rw [if_neg (by simp [hg]), if_neg (by simp [hgb]), if_neg (by simp [hpk]),
        if_neg (by rw [hpol]; simp), if_neg (by simp [hmid]), if_neg (by simp [hsh]),
        if_neg (by simp [hab]), if_neg (by simp [hrb]), if_neg (by simp [hdb]),
        if_neg (by simp [hctl]), if_neg (by simpa [anonPoster] using hanon)]
    rcases henc : env.checkEncIPBanned hdr.encIp with ⟨b, e⟩
    refine ⟨?_, ?_, ?_⟩ <;> (simp only [henc]; split_ifs <;> simp)

/-- Witness for the amended C2: a plain anonymous post with allow_anon on is
accepted. -/
theorem anon_branch_semantics_witness :
    checkMIMEHeaderNoAuth envC2w hdrC2w = ⟨"", false, none⟩ :=
  (anon_branch_semantics envC2w hdrC2w rfl rfl rfl rfl rfl rfl rfl rfl rfl rfl
    rfl rfl).1 rfl

/-- C9: evaluation of the ingest paths.  First conjunct: when CreateFile
returns nil (in-flight duplicate) the body is discarded and neither
ProcessMessageBody nor loadFromInfeed runs, with no error.  Middle conjuncts:
when ProcessMessageBody fails, TAKETHIS and IHAVE delete the partial file and
reply 439 / 437 with the error.  Last conjunct: POST on the same failure also
deletes the file but replies 240, not 441, because its success flag is never
re-examined after storeMessage. -/
theorem ingest_failure_paths :
    storeMessage envDup hdrPost = ([.discardBody], none) ∧
    handleTakethis envC9 authedConn "<p@x>"
      = (authedConn, [.createFile "<p@x>", .processBody, .deleteFile "<p@x>",
                      .reply "439 <p@x> disk full"]) ∧
    handleIhave envC9 authedConn "<p@x>"
      = (authedConn, [.reply "335 Send it plz", .createFile "<p@x>", .processBody,
                      .deleteFile "<p@x>", .reply "437 Transfer Failed disk full"]) ∧
    handlePost envC9 authedConn
      = (authedConn, [.reply "340 Yeeeh postit yo; end with <CR-LF>.<CR-LF>",
                      .createFile "<p@x>", .processBody, .deleteFile "<p@x>",
                      .reply "240 We got it, thnkxbai"]) :=
  ⟨rfl, rfl, rfl, rfl⟩

end Srnd
